import Mathlib

/-!
Verification of the 2D camera subsystem of the GameOfLife_wgpu demo
(`src/camera.rs`) and of its input-event dispatch (`src/main.rs`,
`App::window_event`).

Modelling conventions:
* All `f32`/`f64` arithmetic is embedded as exact rational arithmetic (`ℚ`).
  The floating-point constants `0.1` and `10.` become `1/10` and `10`; the
  `float_cmp::approx_eq!` comparisons degenerate to exact equality at this
  idealized level (spec tolerances such as `1e-4` are trivially met by exact
  equality).
* `u32` dimensions (`winit::dpi::LogicalSize<u32>`) are embedded as `ℕ`.
* `nalgebra::Matrix4<f32>` is embedded as an explicit 4×4 rational matrix
  (`Mat4`), with `new_orthographic` and `new_translation` translated from
  nalgebra's `Orthographic3::new` and `Matrix4::new_translation`.
* Stateful Rust methods on `&mut self` become pure functions
  `Camera → args → Camera`.
-/

namespace GameOfLife

/-- Model of `winit::dpi::LogicalPosition<f32>`: a logical-pixel position. -/
structure LogicalPosition where
  x : ℚ
  y : ℚ
  deriving DecidableEq, Repr

/-- Model of `winit::dpi::LogicalSize<u32>`: logical-pixel dimensions. -/
structure LogicalSize where
  width : ℕ
  height : ℕ
  deriving DecidableEq, Repr

/-- Model of `nalgebra::Vector2<f32>`. -/
structure Vector2 where
  x : ℚ
  y : ℚ
  deriving DecidableEq, Repr

/-- Componentwise vector addition (`nalgebra` `+` on `Vector2`). -/
def Vector2.add (a b : Vector2) : Vector2 := ⟨a.x + b.x, a.y + b.y⟩

/-- Componentwise vector subtraction (`nalgebra` `-` on `Vector2`). -/
def Vector2.sub (a b : Vector2) : Vector2 := ⟨a.x - b.x, a.y - b.y⟩

/-- Scalar division of a vector (`nalgebra` `/` on `Vector2`). -/
def Vector2.divScalar (a : Vector2) (k : ℚ) : Vector2 := ⟨a.x / k, a.y / k⟩

/-- Constant `ZOOM_MIN` from `camera.rs` (the f32 literal `0.1`). -/
def ZOOM_MIN : ℚ := 1 / 10

/-- Constant `ZOOM_MAX` from `camera.rs` (the f32 literal `10.`). -/
def ZOOM_MAX : ℚ := 10

/-- Constant `ZOOM_DEFAULT_SENSITIVITY` from `camera.rs` (the f32 literal `0.1`). -/
def ZOOM_DEFAULT_SENSITIVITY : ℚ := 1 / 10

/-- Rust `f32::clamp(self, min, max)`:
`if self < min { min } else if self > max { max } else { self }`. -/
def clamp (x lo hi : ℚ) : ℚ :=
  if x < lo then lo else if hi < x then hi else x

/-- The `Camera` struct from `camera.rs`. -/
structure Camera where
  position : Vector2
  zoom : ℚ
  zoom_sensitivity : ℚ
  viewport_size : LogicalSize
  lmb_is_pressed : Bool
  cursor_position : LogicalPosition
  deriving DecidableEq, Repr

/-- `Camera::new(viewport_size)` from `camera.rs`. -/
def Camera.new (viewport_size : LogicalSize) : Camera where
  position := ⟨0, 0⟩
  zoom := 1
  zoom_sensitivity := ZOOM_DEFAULT_SENSITIVITY
  viewport_size := viewport_size
  lmb_is_pressed := false
  cursor_position := ⟨0, 0⟩

/-- `Camera::set_position` from `camera.rs`. -/
def Camera.set_position (c : Camera) (position : Vector2) : Camera :=
  { c with position := position }

/-- `Camera::set_zoom_sensitivity` from `camera.rs`. -/
def Camera.set_zoom_sensitivity (c : Camera) (zoom_sensitivity : ℚ) : Camera :=
  { c with zoom_sensitivity := zoom_sensitivity }

/-- `Camera::set_viewport_size` from `camera.rs`. -/
def Camera.set_viewport_size (c : Camera) (viewport_size : LogicalSize) : Camera :=
  { c with viewport_size := viewport_size }

/-- `Camera::update_lmb_state` from `camera.rs`. -/
def Camera.update_lmb_state (c : Camera) (lmb_is_pressed : Bool) : Camera :=
  { c with lmb_is_pressed := lmb_is_pressed }

/-- `Camera::screen_to_world_position` from `camera.rs`: offset from the
viewport center, divided by zoom, y negated, added to `position`. -/
def Camera.screen_to_world_position (c : Camera) (screen_pos : LogicalPosition) : Vector2 :=
  let screen_position : Vector2 := ⟨screen_pos.x, screen_pos.y⟩
  let screen_center : Vector2 :=
    ⟨(c.viewport_size.width : ℚ) / 2, (c.viewport_size.height : ℚ) / 2⟩
  let screen_offset := screen_position.sub screen_center
  let world_offset := screen_offset.divScalar c.zoom
  let world_offset : Vector2 := ⟨world_offset.x, -world_offset.y⟩
  c.position.add world_offset

/-- `Camera::mouse_scroll` from `camera.rs`: clamp the new zoom, bail out if
it is unchanged (the `approx_eq!` early return), otherwise set the zoom and
shift `position` so the world point under the stored cursor stays fixed. -/
def Camera.mouse_scroll (c : Camera) (scroll : ℚ) : Camera :=
  let zoom_delta := scroll * c.zoom_sensitivity
  let old_zoom := c.zoom
  let new_zoom := clamp (old_zoom + zoom_delta) ZOOM_MIN ZOOM_MAX
  if old_zoom = new_zoom then c
  else
    let cursor_position := c.cursor_position
    let old_cursor_world_position := c.screen_to_world_position cursor_position
    let c' := { c with zoom := new_zoom }
    let new_cursor_world_position := c'.screen_to_world_position cursor_position
    let cursor_position_delta := new_cursor_world_position.sub old_cursor_world_position
    { c' with position := c'.position.sub cursor_position_delta }

/-- `Camera::update_cursor_position` from `camera.rs`: the all-zero stored
cursor with the left button held is the sentinel branch (record the cursor,
return); while dragging, pan by `(old - new) / zoom` with the y contribution
subtracted; in all branches the stored cursor ends up as the argument. -/
def Camera.update_cursor_position (c : Camera) (cursor_position : LogicalPosition) : Camera :=
  if c.cursor_position.x = 0 ∧ c.cursor_position.y = 0 ∧ c.lmb_is_pressed then
    { c with cursor_position := cursor_position }
  else if c.lmb_is_pressed then
    let old_x := c.cursor_position.x
    let old_y := c.cursor_position.y
    let new_x := cursor_position.x
    let new_y := cursor_position.y
    let delta_x := old_x - new_x
    let delta_y := old_y - new_y
    { c with
        position := ⟨c.position.x + delta_x / c.zoom, c.position.y - delta_y / c.zoom⟩,
        cursor_position := cursor_position }
  else
    { c with cursor_position := cursor_position }

/-- Model of `nalgebra::Matrix4<f32>`, entries named `mRC` (row-column,
1-indexed as in nalgebra). -/
structure Mat4 where
  m11 : ℚ
  m12 : ℚ
  m13 : ℚ
  m14 : ℚ
  m21 : ℚ
  m22 : ℚ
  m23 : ℚ
  m24 : ℚ
  m31 : ℚ
  m32 : ℚ
  m33 : ℚ
  m34 : ℚ
  m41 : ℚ
  m42 : ℚ
  m43 : ℚ
  m44 : ℚ
  deriving DecidableEq, Repr

/-- Row-times-column 4×4 matrix product (`nalgebra` `*` on `Matrix4`). -/
def Mat4.mul (a b : Mat4) : Mat4 where
  m11 := a.m11 * b.m11 + a.m12 * b.m21 + a.m13 * b.m31 + a.m14 * b.m41
  m12 := a.m11 * b.m12 + a.m12 * b.m22 + a.m13 * b.m32 + a.m14 * b.m42
  m13 := a.m11 * b.m13 + a.m12 * b.m23 + a.m13 * b.m33 + a.m14 * b.m43
  m14 := a.m11 * b.m14 + a.m12 * b.m24 + a.m13 * b.m34 + a.m14 * b.m44
  m21 := a.m21 * b.m11 + a.m22 * b.m21 + a.m23 * b.m31 + a.m24 * b.m41
  m22 := a.m21 * b.m12 + a.m22 * b.m22 + a.m23 * b.m32 + a.m24 * b.m42
  m23 := a.m21 * b.m13 + a.m22 * b.m23 + a.m23 * b.m33 + a.m24 * b.m43
  m24 := a.m21 * b.m14 + a.m22 * b.m24 + a.m23 * b.m34 + a.m24 * b.m44
  m31 := a.m31 * b.m11 + a.m32 * b.m21 + a.m33 * b.m31 + a.m34 * b.m41
  m32 := a.m31 * b.m12 + a.m32 * b.m22 + a.m33 * b.m32 + a.m34 * b.m42
  m33 := a.m31 * b.m13 + a.m32 * b.m23 + a.m33 * b.m33 + a.m34 * b.m43
  m34 := a.m31 * b.m14 + a.m32 * b.m24 + a.m33 * b.m34 + a.m34 * b.m44
  m41 := a.m41 * b.m11 + a.m42 * b.m21 + a.m43 * b.m31 + a.m44 * b.m41
  m42 := a.m41 * b.m12 + a.m42 * b.m22 + a.m43 * b.m32 + a.m44 * b.m42
  m43 := a.m41 * b.m13 + a.m42 * b.m23 + a.m43 * b.m33 + a.m44 * b.m43
  m44 := a.m41 * b.m14 + a.m42 * b.m24 + a.m43 * b.m34 + a.m44 * b.m44

/-- Homogeneous 4-vector, used for applying a `Mat4` to a point. -/
structure Vec4 where
  x : ℚ
  y : ℚ
  z : ℚ
  w : ℚ
  deriving DecidableEq, Repr

/-- Apply a `Mat4` to the homogeneous point `(x, y, z, 1)`. -/
def Mat4.transformPoint (m : Mat4) (x y z : ℚ) : Vec4 where
  x := m.m11 * x + m.m12 * y + m.m13 * z + m.m14
  y := m.m21 * x + m.m22 * y + m.m23 * z + m.m24
  z := m.m31 * x + m.m32 * y + m.m33 * z + m.m34
  w := m.m41 * x + m.m42 * y + m.m43 * z + m.m44

/-- `nalgebra::Matrix4::new_orthographic(left, right, bottom, top, znear, zfar)`
(via `Orthographic3::new`): identity overwritten with the OpenGL-style
orthographic entries. -/
def Mat4.new_orthographic (left right bottom top znear zfar : ℚ) : Mat4 where
  m11 := 2 / (right - left)
  m12 := 0
  m13 := 0
  m14 := -(right + left) / (right - left)
  m21 := 0
  m22 := 2 / (top - bottom)
  m23 := 0
  m24 := -(top + bottom) / (top - bottom)
  m31 := 0
  m32 := 0
  m33 := -2 / (zfar - znear)
  m34 := -(zfar + znear) / (zfar - znear)
  m41 := 0
  m42 := 0
  m43 := 0
  m44 := 1

/-- `nalgebra::Matrix4::new_translation(&Vector3::new(x, y, z))`: identity with
the translation in the last column. -/
def Mat4.new_translation (x y z : ℚ) : Mat4 where
  m11 := 1
  m12 := 0
  m13 := 0
  m14 := x
  m21 := 0
  m22 := 1
  m23 := 0
  m24 := y
  m31 := 0
  m32 := 0
  m33 := 1
  m34 := z
  m41 := 0
  m42 := 0
  m43 := 0
  m44 := 1

/-- `Camera::calculate_view_projection_matrix` from `camera.rs`:
orthographic projection over zoom-scaled half extents times the translation
by `-position`. -/
def Camera.calculate_view_projection_matrix (c : Camera) : Mat4 :=
  let half_w := (c.viewport_size.width : ℚ) / (2 * c.zoom)
  let half_h := (c.viewport_size.height : ℚ) / (2 * c.zoom)
  let left := -half_w
  let right := half_w
  let bottom := -half_h
  let top := half_h
  let proj := Mat4.new_orthographic left right bottom top (-1) 1
  let view := Mat4.new_translation (-c.position.x) (-c.position.y) 0
  proj.mul view

/-- One public mutating call on `Camera` (the interface of `camera.rs`). -/
inductive CameraOp where
  | mouseScroll (scroll : ℚ)
  | updateCursorPosition (p : LogicalPosition)
  | updateLmbState (b : Bool)
  | setPosition (p : Vector2)
  | setViewportSize (s : LogicalSize)
  | setZoomSensitivity (z : ℚ)
  deriving DecidableEq, Repr

/-- Apply one mutating call to a camera state. -/
def Camera.applyOp (c : Camera) : CameraOp → Camera
  | CameraOp.mouseScroll s => c.mouse_scroll s
  | CameraOp.updateCursorPosition p => c.update_cursor_position p
  | CameraOp.updateLmbState b => c.update_lmb_state b
  | CameraOp.setPosition p => c.set_position p
  | CameraOp.setViewportSize s => c.set_viewport_size s
  | CameraOp.setZoomSensitivity z => c.set_zoom_sensitivity z

/-- Run a sequence of mutating calls from a starting camera state. -/
def Camera.runOps (c : Camera) (ops : List CameraOp) : Camera :=
  ops.foldl Camera.applyOp c

/-- Model of the `InputState` struct from `main.rs` (the `f64` physical cursor
position becomes a rational pair). -/
structure InputState where
  cursor_in_window : Bool
  lmb_is_pressed : Bool
  cursor_position : ℚ × ℚ
  deriving DecidableEq, Repr

/-- Model of `winit::event::MouseScrollDelta`. -/
inductive MouseScrollDelta where
  | lineDelta (x y : ℚ)
  | pixelDelta (x y : ℚ)
  deriving DecidableEq, Repr

/-- Model of `winit::event::MouseButton` (only `Left` is distinguished by the
handler). -/
inductive MouseButtonKind where
  | left
  | right
  | middle
  | otherButton
  deriving DecidableEq, Repr

/-- Model of the `winit::event::WindowEvent` variants as dispatched by
`App::window_event` in `main.rs`. `resized` carries the already-converted
logical size (the physical-to-logical conversion is windowing plumbing);
`otherEvent` stands for every variant the handler leaves to its wildcard arm.
Note that `mouseWheel` has no arm of its own in the source match: it, too,
falls to the wildcard. -/
inductive WindowEventKind where
  | redrawRequested
  | resized (new_size : LogicalSize)
  | closeRequested
  | cursorEntered
  | cursorLeft
  | mouseInput (button : MouseButtonKind) (pressed : Bool)
  | cursorMoved (position : ℚ × ℚ)
  | mouseWheel (delta : MouseScrollDelta)
  | otherEvent
  deriving DecidableEq, Repr

/-- The camera- and input-relevant state owned by `App` in `main.rs`
(graphics context, window and GPU resources are out of model). -/
structure AppState where
  input_state : InputState
  camera : Camera
  deriving DecidableEq, Repr

/-- Modelled from the spec: `main.rs` calls `camera.resize(new_size)` on a
resize event, but no `resize` method exists in `src/camera.rs` (a revision
mismatch); the spec's `set_viewport_size` describes resize handling
("Replaces viewport dimensions (e.g., on window resize)"), so `resize` is
modelled as replacing the viewport size. -/
def Camera.resize (c : Camera) (new_size : LogicalSize) : Camera :=
  c.set_viewport_size new_size

/-- `App::window_event` from `main.rs`, restricted to its effect on
`InputState` and `Camera` and to whether it raises an error or panic
(modelled as `Except.error`; the source handler contains no panic, so every
branch returns `Except.ok`). Rendering, surface reconfiguration, window
visibility and event-loop exit are effects on out-of-model resources.
`scale_factor` is the window scale factor used by `to_logical`, which divides
physical coordinates by it. -/
def AppState.window_event (s : AppState) (scale_factor : ℚ) :
    WindowEventKind → Except String AppState
  | WindowEventKind.redrawRequested => Except.ok s
  | WindowEventKind.resized new_size =>
      Except.ok { s with camera := s.camera.resize new_size }
  | WindowEventKind.closeRequested => Except.ok s
  | WindowEventKind.cursorEntered =>
      Except.ok { s with input_state := { s.input_state with cursor_in_window := true } }
  | WindowEventKind.cursorLeft =>
      Except.ok { s with input_state := { s.input_state with cursor_in_window := false } }
  | WindowEventKind.mouseInput button pressed =>
      let s :=
        if button = MouseButtonKind.left ∧ pressed then
          { s with
              input_state := { s.input_state with lmb_is_pressed := true },
              camera := s.camera.update_lmb_state true }
        else s
      let s :=
        if button = MouseButtonKind.left ∧ ¬pressed then
          { s with
              input_state := { s.input_state with lmb_is_pressed := false },
              camera := s.camera.update_lmb_state false }
        else s
      Except.ok s
  | WindowEventKind.cursorMoved position =>
      Except.ok
        { s with
            input_state := { s.input_state with cursor_position := position },
            camera :=
              s.camera.update_cursor_position
                ⟨position.1 / scale_factor, position.2 / scale_factor⟩ }
  | WindowEventKind.mouseWheel _ => Except.ok s
  | WindowEventKind.otherEvent => Except.ok s

/-- Concrete camera for the C5 witness: dragging, stored cursor `(100, 100)`. -/
def camC5 : Camera := ⟨⟨0, 0⟩, 1, 1 / 10, ⟨800, 600⟩, true, ⟨100, 100⟩⟩

/-- Concrete camera for C6: `position = (0, 0)`, `zoom = 1`, drag active,
stored cursor `(100, 100)`. -/
def camC6 : Camera := ⟨⟨0, 0⟩, 1, 1 / 10, ⟨800, 600⟩, true, ⟨100, 100⟩⟩

/-- Concrete camera for the C7 witness: left button not pressed. -/
def camC7 : Camera := ⟨⟨3, 4⟩, 2, 1 / 10, ⟨800, 600⟩, false, ⟨50, 60⟩⟩

/-- Concrete camera for the C8 witness: dragging, stored cursor `(0, 0)`. -/
def camC8 : Camera := ⟨⟨3, 4⟩, 2, 1 / 10, ⟨800, 600⟩, true, ⟨0, 0⟩⟩

/-- Concrete application state for C9. -/
def appC9 : AppState := ⟨⟨false, false, (0, 0)⟩, Camera.new ⟨320, 320⟩⟩

/-- Concrete camera for the C2 witness: zoom 1, stored cursor `(100, 100)`. -/
def camC2 : Camera := ⟨⟨0, 0⟩, 1, 1 / 10, ⟨800, 600⟩, false, ⟨100, 100⟩⟩

/-- Concrete camera for the C3 witness: position `(10, 20)`, zoom 2. -/
def camC3 : Camera := ⟨⟨10, 20⟩, 2, 1 / 10, ⟨800, 600⟩, false, ⟨0, 0⟩⟩

/-- C5: while dragging with a non-sentinel stored cursor,
`update_cursor_position` pans by `delta.x / zoom` on x and `-delta.y / zoom`
on y where `delta = old_cursor - new_pos`; and in every state, dragging or
not, it ends by storing the new cursor position. -/
theorem c5_drag_pan (c : Camera) (p : LogicalPosition) :
    (c.lmb_is_pressed = true →
      ¬(c.cursor_position.x = 0 ∧ c.cursor_position.y = 0) →
      (c.update_cursor_position p).position.x
          = c.position.x + (c.cursor_position.x - p.x) / c.zoom ∧
        (c.update_cursor_position p).position.y
          = c.position.y - (c.cursor_position.y - p.y) / c.zoom) ∧
    (c.update_cursor_position p).cursor_position = p := by
  constructor
  · intro hl hs
    rw [Camera.update_cursor_position, if_neg (by simp [hl]; tauto), if_pos (by simp [hl])]
    exact ⟨rfl, rfl⟩
  · rw [Camera.update_cursor_position]
    split
    · rfl
    · split <;> rfl

/-- Witness for C5: the pan formula and the cursor update, evaluated at a
concrete dragging camera with stored cursor `(100, 100)` moving to `(80, 90)`. -/
theorem c5_drag_pan_witness :
    ((camC5.update_cursor_position ⟨80, 90⟩).position.x
        = camC5.position.x + (camC5.cursor_position.x - 80) / camC5.zoom ∧
      (camC5.update_cursor_position ⟨80, 90⟩).position.y
        = camC5.position.y - (camC5.cursor_position.y - 90) / camC5.zoom) ∧
    (camC5.update_cursor_position ⟨80, 90⟩).cursor_position = ⟨80, 90⟩ :=
  ⟨(c5_drag_pan camC5 ⟨80, 90⟩).1 rfl (by decide), (c5_drag_pan camC5 ⟨80, 90⟩).2⟩

/-- Counterexample to C6 as stated: dragging from `(100, 100)` to `(80, 90)`
at `position = (0, 0)`, `zoom = 1` does not move `position` by `(+20, +10)` —
the y update is `position.y -= delta_y / zoom`, which yields `-10`. -/
theorem c6_claimed_delta_false :
    ¬((camC6.update_cursor_position ⟨80, 90⟩).position.x = 20 ∧
      (camC6.update_cursor_position ⟨80, 90⟩).position.y = 10) := by
  norm_num [camC6, Camera.update_cursor_position]

/-- C6 (amended): dragging from `(100, 100)` to `(80, 90)` at
`position = (0, 0)`, `zoom = 1` moves `position` by `(+20, -10)` — delta x
added, delta y subtracted — with no zoom compensation when `zoom = 1`. -/
theorem c6_drag_delta_accumulation :
    (camC6.update_cursor_position ⟨80, 90⟩).position.x = 20 ∧
    (camC6.update_cursor_position ⟨80, 90⟩).position.y = -10 ∧
    (camC6.update_cursor_position ⟨80, 90⟩).cursor_position = ⟨80, 90⟩ := by
  norm_num [camC6, Camera.update_cursor_position]

/-- C7: with the left button not pressed, `update_cursor_position` changes
only the stored cursor position (set to the argument); `position`, `zoom`,
`zoom_sensitivity`, `viewport_size` and the button state are unchanged. -/
theorem c7_noop_outside_drag (c : Camera) (p : LogicalPosition)
    (h : c.lmb_is_pressed = false) :
    (c.update_cursor_position p).position = c.position ∧
    (c.update_cursor_position p).zoom = c.zoom ∧
    (c.update_cursor_position p).zoom_sensitivity = c.zoom_sensitivity ∧
    (c.update_cursor_position p).viewport_size = c.viewport_size ∧
    (c.update_cursor_position p).lmb_is_pressed = c.lmb_is_pressed ∧
    (c.update_cursor_position p).cursor_position = p := by
  rw [Camera.update_cursor_position, if_neg (by simp [h]), if_neg (by simp [h])]
  exact ⟨rfl, rfl, rfl, rfl, rfl, rfl⟩

/-- Witness for C7 at a concrete non-dragging camera. -/
theorem c7_noop_outside_drag_witness :
    camC7.lmb_is_pressed = false ∧
    ((camC7.update_cursor_position ⟨5, 7⟩).position = camC7.position ∧
      (camC7.update_cursor_position ⟨5, 7⟩).zoom = camC7.zoom ∧
      (camC7.update_cursor_position ⟨5, 7⟩).zoom_sensitivity = camC7.zoom_sensitivity ∧
      (camC7.update_cursor_position ⟨5, 7⟩).viewport_size = camC7.viewport_size ∧
      (camC7.update_cursor_position ⟨5, 7⟩).lmb_is_pressed = camC7.lmb_is_pressed ∧
      (camC7.update_cursor_position ⟨5, 7⟩).cursor_position = ⟨5, 7⟩) :=
  ⟨rfl, c7_noop_outside_drag camC7 ⟨5, 7⟩ rfl⟩

/-- C8: with the left button pressed and the stored cursor equal to the
all-zero sentinel, `update_cursor_position` only records the new cursor
position; `position`, `zoom`, `zoom_sensitivity`, `viewport_size` and the
button state are unchanged (baseline-setting first move). -/
theorem c8_sentinel_first_move (c : Camera) (p : LogicalPosition)
    (hl : c.lmb_is_pressed = true)
    (hx : c.cursor_position.x = 0) (hy : c.cursor_position.y = 0) :
    (c.update_cursor_position p).position = c.position ∧
    (c.update_cursor_position p).zoom = c.zoom ∧
    (c.update_cursor_position p).zoom_sensitivity = c.zoom_sensitivity ∧
    (c.update_cursor_position p).viewport_size = c.viewport_size ∧
    (c.update_cursor_position p).lmb_is_pressed = c.lmb_is_pressed ∧
    (c.update_cursor_position p).cursor_position = p := by
  rw [Camera.update_cursor_position, if_pos (by simp [hl, hx, hy])]
  exact ⟨rfl, rfl, rfl, rfl, rfl, rfl⟩

/-- Witness for C8 at a concrete dragging camera in the sentinel state. -/
theorem c8_sentinel_first_move_witness :
    camC8.lmb_is_pressed = true ∧ camC8.cursor_position.x = 0 ∧
    camC8.cursor_position.y = 0 ∧
    ((camC8.update_cursor_position ⟨5, 7⟩).position = camC8.position ∧
      (camC8.update_cursor_position ⟨5, 7⟩).zoom = camC8.zoom ∧
      (camC8.update_cursor_position ⟨5, 7⟩).zoom_sensitivity = camC8.zoom_sensitivity ∧
      (camC8.update_cursor_position ⟨5, 7⟩).viewport_size = camC8.viewport_size ∧
      (camC8.update_cursor_position ⟨5, 7⟩).lmb_is_pressed = camC8.lmb_is_pressed ∧
      (camC8.update_cursor_position ⟨5, 7⟩).cursor_position = ⟨5, 7⟩) :=
  ⟨rfl, rfl, rfl, c8_sentinel_first_move camC8 ⟨5, 7⟩ rfl rfl rfl⟩

/-- Counterexample to C9 as stated: a pixel-delta scroll event produces no
error or panic — `window_event` has no `MouseWheel` arm and the wildcard arm
silently returns the state unchanged. -/
theorem c9_pixel_delta_no_error :
    (appC9.window_event 1 (WindowEventKind.mouseWheel
        (MouseScrollDelta.pixelDelta 0 10))).isOk = true ∧
    appC9.window_event 1 (WindowEventKind.mouseWheel (MouseScrollDelta.pixelDelta 0 10))
      = Except.ok appC9 := by
  exact ⟨rfl, rfl⟩

/-- C9 (amended): every scroll event — pixel-delta or line-delta — is
silently ignored by `window_event`: no match arm handles `MouseWheel`, so the
wildcard arm leaves the state unchanged and raises no error; in particular
`Camera::mouse_scroll` is never invoked by the event handler. -/
theorem c9_scroll_silently_ignored (s : AppState) (scale_factor : ℚ)
    (d : MouseScrollDelta) :
    s.window_event scale_factor (WindowEventKind.mouseWheel d) = Except.ok s := rfl

/-- C10: `Camera::new` yields `position = (0, 0)`, `zoom = 1`,
`zoom_sensitivity = 0.1`, drag inactive, stored cursor `(0, 0)` and the given
viewport size; consequently the first pointer move of a drag begun before any
pointer movement hits the all-zero sentinel and only records the baseline. -/
theorem c10_new_initial_state (vs : LogicalSize) (p : LogicalPosition) :
    (Camera.new vs).position = ⟨0, 0⟩ ∧
    (Camera.new vs).zoom = 1 ∧
    (Camera.new vs).zoom_sensitivity = 1 / 10 ∧
    (Camera.new vs).lmb_is_pressed = false ∧
    (Camera.new vs).cursor_position = ⟨0, 0⟩ ∧
    (Camera.new vs).viewport_size = vs ∧
    (((Camera.new vs).update_lmb_state true).update_cursor_position p).position
      = (Camera.new vs).position ∧
    (((Camera.new vs).update_lmb_state true).update_cursor_position p).cursor_position
      = p := by
  refine ⟨rfl, rfl, rfl, rfl, rfl, rfl, ?_, ?_⟩ <;>
    (rw [Camera.update_cursor_position,
        if_pos (by simp [Camera.new, Camera.update_lmb_state])]
     try rfl)

/-- Clamping into a nonempty interval lands in the interval. -/
theorem clamp_mem (x lo hi : ℚ) (h : lo ≤ hi) :
    lo ≤ clamp x lo hi ∧ clamp x lo hi ≤ hi := by
  unfold clamp
  split
  next => exact ⟨le_rfl, h⟩
  next hlt =>
    split
    next => exact ⟨h, le_rfl⟩
    next hgt => exact ⟨le_of_not_lt hlt, le_of_not_lt hgt⟩

/-- `mouse_scroll` either keeps the zoom or sets it to the clamped value. -/
theorem mouse_scroll_zoom_cases (c : Camera) (s : ℚ) :
    (c.mouse_scroll s).zoom = c.zoom ∨
    (c.mouse_scroll s).zoom
      = clamp (c.zoom + s * c.zoom_sensitivity) ZOOM_MIN ZOOM_MAX := by
  simp only [Camera.mouse_scroll]
  split
  · exact Or.inl rfl
  · exact Or.inr rfl

/-- `update_cursor_position` never changes the zoom. -/
theorem update_cursor_position_zoom (c : Camera) (p : LogicalPosition) :
    (c.update_cursor_position p).zoom = c.zoom := by
  rw [Camera.update_cursor_position]
  split
  · rfl
  · split <;> rfl

/-- Every public mutating call keeps the zoom inside `[ZOOM_MIN, ZOOM_MAX]`. -/
theorem applyOp_zoom_mem (c : Camera) (op : CameraOp)
    (h : ZOOM_MIN ≤ c.zoom ∧ c.zoom ≤ ZOOM_MAX) :
    ZOOM_MIN ≤ (c.applyOp op).zoom ∧ (c.applyOp op).zoom ≤ ZOOM_MAX := by
  cases op with
  | mouseScroll s =>
      rcases mouse_scroll_zoom_cases c s with hz | hz <;>
        simp only [Camera.applyOp] <;> rw [hz]
      · exact h
      · exact clamp_mem _ _ _ (by norm_num [ZOOM_MIN, ZOOM_MAX])
  | updateCursorPosition p =>
      simp only [Camera.applyOp]
      rw [update_cursor_position_zoom]
      exact h
  | updateLmbState b => exact h
  | setPosition p => exact h
  | setViewportSize s => exact h
  | setZoomSensitivity z => exact h

/-- A run of mutating calls keeps the zoom inside `[ZOOM_MIN, ZOOM_MAX]`. -/
theorem runOps_zoom_mem (ops : List CameraOp) (c : Camera)
    (h : ZOOM_MIN ≤ c.zoom ∧ c.zoom ≤ ZOOM_MAX) :
    ZOOM_MIN ≤ (c.runOps ops).zoom ∧ (c.runOps ops).zoom ≤ ZOOM_MAX := by
  induction ops generalizing c with
  | nil => exact h
  | cons op ops ih =>
      simp only [Camera.runOps, List.foldl_cons] at *
      exact ih _ (applyOp_zoom_mem c op h)

/-- C1: every camera state reachable from `Camera::new` by any sequence of
public mutating calls has its zoom inside `[ZOOM_MIN, ZOOM_MAX] = [0.1, 10]`;
`mouse_scroll` clamps into this interval and no other call touches zoom. -/
theorem c1_zoom_invariant (vs : LogicalSize) (ops : List CameraOp) :
    ZOOM_MIN ≤ ((Camera.new vs).runOps ops).zoom ∧
    ((Camera.new vs).runOps ops).zoom ≤ ZOOM_MAX :=
  runOps_zoom_mem ops (Camera.new vs)
    (by norm_num [Camera.new, ZOOM_MIN, ZOOM_MAX])

/-- C4: for positive zoom, the view-projection matrix is the orthographic
projection over `±viewport/(2·zoom)` bounds with near `-1`, far `1`,
multiplied on the right by the translation by `-position`; at viewport
800×600, zoom 1, position `(0, 0)` the orthographic bounds are
`(-400, 400, -300, 300)`. -/
theorem c4_view_projection_matrix (c : Camera) (hz : 0 < c.zoom) :
    c.calculate_view_projection_matrix =
      (Mat4.new_orthographic
          (-((c.viewport_size.width : ℚ) / (2 * c.zoom)))
          ((c.viewport_size.width : ℚ) / (2 * c.zoom))
          (-((c.viewport_size.height : ℚ) / (2 * c.zoom)))
          ((c.viewport_size.height : ℚ) / (2 * c.zoom)) (-1) 1).mul
        (Mat4.new_translation (-c.position.x) (-c.position.y) 0) ∧
    (Camera.new ⟨800, 600⟩).calculate_view_projection_matrix =
      (Mat4.new_orthographic (-400) 400 (-300) 300 (-1) 1).mul
        (Mat4.new_translation 0 0 0) := by
  refine ⟨rfl, ?_⟩
  norm_num [Camera.new, Camera.calculate_view_projection_matrix,
    Mat4.new_orthographic, Mat4.new_translation, Mat4.mul, Mat4.mk.injEq]

/-- Witness for C4 at the 800×600 default camera. -/
theorem c4_view_projection_matrix_witness :
    (0 : ℚ) < (Camera.new ⟨800, 600⟩).zoom ∧
    (Camera.new ⟨800, 600⟩).calculate_view_projection_matrix =
      (Mat4.new_orthographic
          (-(((Camera.new ⟨800, 600⟩).viewport_size.width : ℚ)
              / (2 * (Camera.new ⟨800, 600⟩).zoom)))
          (((Camera.new ⟨800, 600⟩).viewport_size.width : ℚ)
            / (2 * (Camera.new ⟨800, 600⟩).zoom))
          (-(((Camera.new ⟨800, 600⟩).viewport_size.height : ℚ)
              / (2 * (Camera.new ⟨800, 600⟩).zoom)))
          (((Camera.new ⟨800, 600⟩).viewport_size.height : ℚ)
            / (2 * (Camera.new ⟨800, 600⟩).zoom)) (-1) 1).mul
        (Mat4.new_translation (-(Camera.new ⟨800, 600⟩).position.x)
          (-(Camera.new ⟨800, 600⟩).position.y) 0) :=
  ⟨by norm_num [Camera.new],
    (c4_view_projection_matrix (Camera.new ⟨800, 600⟩) (by norm_num [Camera.new])).1⟩

/-- C2: whenever `mouse_scroll` actually changes the zoom, the world
position of the stored cursor is exactly the same after the call as before
it (zoom-to-cursor stability; exact equality implies the spec's `1e-4`
tolerance). -/
theorem c2_zoom_to_cursor_stability (c : Camera) (scroll : ℚ)
    (hw : 0 < c.viewport_size.width) (hh : 0 < c.viewport_size.height)
    (hz1 : ZOOM_MIN ≤ c.zoom) (hz2 : c.zoom ≤ ZOOM_MAX)
    (hne : (c.mouse_scroll scroll).zoom ≠ c.zoom) :
    (c.mouse_scroll scroll).screen_to_world_position
        (c.mouse_scroll scroll).cursor_position
      = c.screen_to_world_position c.cursor_position := by
  by_cases h :
      c.zoom = clamp (c.zoom + scroll * c.zoom_sensitivity) ZOOM_MIN ZOOM_MAX
  · exfalso
    apply hne
    simp only [Camera.mouse_scroll]
    rw [if_pos h]
  · simp only [Camera.mouse_scroll]
    rw [if_neg h]
    simp only [Camera.screen_to_world_position, Vector2.add, Vector2.sub,
      Vector2.divScalar, Vector2.mk.injEq]
    constructor <;> ring

/-- The view-projection matrix sends the homogeneous point `(x, y, 0, 1)` to
`((x - pos.x) · 2·zoom / width, (y - pos.y) · 2·zoom / height, 0, 1)`. -/
theorem vp_transformPoint (c : Camera) (x y : ℚ) (hz : c.zoom ≠ 0)
    (hw : (c.viewport_size.width : ℚ) ≠ 0)
    (hh : (c.viewport_size.height : ℚ) ≠ 0) :
    c.calculate_view_projection_matrix.transformPoint x y 0 =
      ⟨(x - c.position.x) * (2 * c.zoom) / (c.viewport_size.width : ℚ),
        (y - c.position.y) * (2 * c.zoom) / (c.viewport_size.height : ℚ), 0, 1⟩ := by
  simp only [Camera.calculate_view_projection_matrix, Mat4.new_orthographic,
    Mat4.new_translation, Mat4.mul, Mat4.transformPoint, Vec4.mk.injEq]
  refine ⟨?_, ?_, ?_, ?_⟩ <;> (field_simp; try ring)

/-- C3: screen-to-world exactly inverts the world-to-screen mapping induced
by the view-projection matrix — pushing `screen_to_world_position S` through
the matrix to normalized device coordinates and then through the viewport
transform `((ndc.x + 1)/2 · width, (1 - ndc.y)/2 · height)` gives back `S`
exactly (hence within any tolerance). -/
theorem c3_screen_world_round_trip (c : Camera) (s : LogicalPosition)
    (hz : 0 < c.zoom) (hw : 0 < c.viewport_size.width)
    (hh : 0 < c.viewport_size.height)
    (hx0 : 0 ≤ s.x) (hx1 : s.x ≤ (c.viewport_size.width : ℚ))
    (hy0 : 0 ≤ s.y) (hy1 : s.y ≤ (c.viewport_size.height : ℚ)) :
    ((c.calculate_view_projection_matrix.transformPoint
          (c.screen_to_world_position s).x (c.screen_to_world_position s).y 0).x
        / (c.calculate_view_projection_matrix.transformPoint
          (c.screen_to_world_position s).x (c.screen_to_world_position s).y 0).w
      + 1) / 2 * (c.viewport_size.width : ℚ) = s.x ∧
    (1 - (c.calculate_view_projection_matrix.transformPoint
          (c.screen_to_world_position s).x (c.screen_to_world_position s).y 0).y
        / (c.calculate_view_projection_matrix.transformPoint
          (c.screen_to_world_position s).x (c.screen_to_world_position s).y 0).w)
      / 2 * (c.viewport_size.height : ℚ) = s.y := by
  have hzq : c.zoom ≠ 0 := ne_of_gt hz
  have hwq : (c.viewport_size.width : ℚ) ≠ 0 := by
    exact_mod_cast Nat.pos_iff_ne_zero.mp hw
  have hhq : (c.viewport_size.height : ℚ) ≠ 0 := by
    exact_mod_cast Nat.pos_iff_ne_zero.mp hh
  rw [vp_transformPoint c _ _ hzq hwq hhq]
  simp only [Camera.screen_to_world_position, Vector2.add, Vector2.sub,
    Vector2.divScalar]
  constructor <;> (field_simp; ring)

/-- Witness for C2: scrolling by 1 at zoom 1 moves the zoom to 11/10 and the
world position of the stored cursor `(100, 100)` is unchanged. -/
theorem c2_zoom_to_cursor_stability_witness :
    0 < camC2.viewport_size.width ∧ 0 < camC2.viewport_size.height ∧
    ZOOM_MIN ≤ camC2.zoom ∧ camC2.zoom ≤ ZOOM_MAX ∧
    (camC2.mouse_scroll 1).zoom ≠ camC2.zoom ∧
    (camC2.mouse_scroll 1).screen_to_world_position
        (camC2.mouse_scroll 1).cursor_position
      = camC2.screen_to_world_position camC2.cursor_position :=
  ⟨by norm_num [camC2], by norm_num [camC2],
    by norm_num [camC2, ZOOM_MIN], by norm_num [camC2, ZOOM_MAX],
    by norm_num [camC2, Camera.mouse_scroll, clamp, ZOOM_MIN, ZOOM_MAX],
    c2_zoom_to_cursor_stability camC2 1 (by norm_num [camC2]) (by norm_num [camC2])
      (by norm_num [camC2, ZOOM_MIN]) (by norm_num [camC2, ZOOM_MAX])
      (by norm_num [camC2, Camera.mouse_scroll, clamp, ZOOM_MIN, ZOOM_MAX])⟩

/-- Witness for C3: the round trip at a concrete camera (position `(10, 20)`,
zoom 2, viewport 800×600) and screen point `(100, 200)`. -/
theorem c3_screen_world_round_trip_witness :
    0 < camC3.zoom ∧ 0 < camC3.viewport_size.width ∧
    0 < camC3.viewport_size.height ∧
    (0 ≤ (⟨100, 200⟩ : LogicalPosition).x ∧
      (⟨100, 200⟩ : LogicalPosition).x ≤ (camC3.viewport_size.width : ℚ)) ∧
    (0 ≤ (⟨100, 200⟩ : LogicalPosition).y ∧
      (⟨100, 200⟩ : LogicalPosition).y ≤ (camC3.viewport_size.height : ℚ)) ∧
    (((camC3.calculate_view_projection_matrix.transformPoint
          (camC3.screen_to_world_position ⟨100, 200⟩).x
          (camC3.screen_to_world_position ⟨100, 200⟩).y 0).x
        / (camC3.calculate_view_projection_matrix.transformPoint
          (camC3.screen_to_world_position ⟨100, 200⟩).x
          (camC3.screen_to_world_position ⟨100, 200⟩).y 0).w
      + 1) / 2 * (camC3.viewport_size.width : ℚ) = (⟨100, 200⟩ : LogicalPosition).x ∧
    (1 - (camC3.calculate_view_projection_matrix.transformPoint
          (camC3.screen_to_world_position ⟨100, 200⟩).x
          (camC3.screen_to_world_position ⟨100, 200⟩).y 0).y
        / (camC3.calculate_view_projection_matrix.transformPoint
          (camC3.screen_to_world_position ⟨100, 200⟩).x
          (camC3.screen_to_world_position ⟨100, 200⟩).y 0).w)
      / 2 * (camC3.viewport_size.height : ℚ) = (⟨100, 200⟩ : LogicalPosition).y) :=
  ⟨by norm_num [camC3], by norm_num [camC3], by norm_num [camC3],
    ⟨by norm_num, by norm_num [camC3]⟩, ⟨by norm_num, by norm_num [camC3]⟩,
    c3_screen_world_round_trip camC3 ⟨100, 200⟩ (by norm_num [camC3])
      (by norm_num [camC3]) (by norm_num [camC3]) (by norm_num)
      (by norm_num [camC3]) (by norm_num) (by norm_num [camC3])⟩

end GameOfLife
